import Mathlib

/-!
Shallow embedding of the gateway core of `src/client.rs` (hiven-rs).

The source file models a WebSocket gateway session as two cooperating
tasks joined by `start_gateway`:

* `manage_gateway` (the socket pump) reads websocket messages, parses
  text frames and pushes them on the ingress channel, and writes frames
  dequeued from the egress channel to the transport;
* `listen_gateway` (the dispatcher) consumes the ingress channel,
  enforces the Hello handshake, sends the Login frame, runs the
  heartbeat ticker and invokes user callbacks.

Asynchronous channels are embedded as explicit lists of delivered items,
and each task becomes a function from those lists to an outcome plus the
traces it produced.  Panics (`unwrap()` on `None`/`Err`, and
`unimplemented!()`) are modelled by a distinguished `panicked` outcome.
-/

namespace HivenRs

/-- Close data (code and reason) carried by a websocket Close message;
embeds tungstenite's `CloseFrame`. -/
structure CloseFrameData where
  code : Nat
  reason : String
deriving DecidableEq

/-- Event payloads (`OpCodeEvent` in the repository's `gateway.rs`, which
is not under `src/`).  The core in `client.rs` only matches on the tag
and forwards the payload to the user callback, so each payload is
embedded as an uninterpreted string. -/
inductive OpCodeEvent
  | initState (data : String)
  | houseJoin (data : String)
  | typingStart (data : String)
  | messageCreate (data : String)
deriving DecidableEq

/-- Gateway frames (`Frame` in `gateway.rs`); the four opcodes the core
matches on in `client.rs`. -/
inductive Frame
  | hello (heart_beat : Nat)
  | login (token : String)
  | heartBeat
  | event (e : OpCodeEvent)
deriving DecidableEq

/-- The error enum of `client.rs` lines 213-218. -/
inductive Error
  | expectationFailed (expected : String) (got : String)
  | socketClose (closeData : Option CloseFrameData)
  | internalChannelError (context : String)
deriving DecidableEq

/-- Websocket messages as the pump's `match` at lines 128-140
distinguishes them: Text, Close, and every other kind. -/
inductive WebsocketMessage
  | text (s : String)
  | binary (bytes : List Nat)
  | ping (bytes : List Nat)
  | pong (bytes : List Nat)
  | close (d : Option CloseFrameData)
deriving DecidableEq

/-- Rendering of an event payload for `format!("\x7b:?\x7d", got)`; the
actual `Debug` derive lives in `gateway.rs` (not under `src/`), so the
embedding uses a straightforward injective rendering. -/
def opCodeEventRepr : OpCodeEvent → String
  | .initState d => "InitState(" ++ d ++ ")"
  | .houseJoin d => "HouseJoin(" ++ d ++ ")"
  | .typingStart d => "TypingStart(" ++ d ++ ")"
  | .messageCreate d => "MessageCreate(" ++ d ++ ")"

/-- Rendering of a frame for `Error::expectation_failed`'s
`format!("\x7b:?\x7d", got)` (same remark as `opCodeEventRepr`). -/
def frameRepr : Frame → String
  | .hello hb => "Hello(OpCodeHello(" ++ toString hb ++ "))"
  | .login t => "Login(OpCodeLogin(" ++ t ++ "))"
  | .heartBeat => "HeartBeat"
  | .event e => "Event(" ++ opCodeEventRepr e ++ ")"

/-- Rendering of a websocket message for the non-text, non-close arm at
lines 138-139. -/
def wsMessageRepr : WebsocketMessage → String
  | .text s => "Text(" ++ s ++ ")"
  | .binary _ => "Binary(..)"
  | .ping _ => "Ping(..)"
  | .pong _ => "Pong(..)"
  | .close _ => "Close(..)"

/-- Outcome of one of the async tasks: returned `Ok(())`, returned
`Err(e)`, or panicked (an `unwrap()` on `None`/`Err`, or
`unimplemented!()`). -/
inductive Outcome
  | ok
  | err (e : Error)
  | panicked
deriving DecidableEq

/-- Whether an outcome is a normal `Ok(())` return. -/
def Outcome.isOk : Outcome → Bool
  | .ok => true
  | _ => false

/-! ## Heartbeat ticker (lines 158-167)

```
loop {
    if let Ok(()) = timeout(duration, notify.notified()).await
        {return Result::Ok(())}
    sender.send(Some(Frame::HeartBeat)).await.unwrap();
}
```

The schedule is the list of loop iterations in which the `notified()`
wait timed out; each entry records whether the following egress send
succeeded (`true`) or failed because the channel was closed (`false`).
The schedule ends when `notify.notified()` wins the race, at which point
the ticker returns `Ok(())`. -/

/-- Result of running the ticker loop over a schedule. -/
def tickerRun : List Bool → Outcome
  | [] => .ok
  | true :: rest => tickerRun rest
  | false :: _ => .panicked

/-- Frames the ticker enqueues on egress over a schedule: one
`HeartBeat` per successful send; a failed send panics before enqueueing
and ends the loop. -/
def tickerEgress : List Bool → List Frame
  | [] => []
  | true :: rest => Frame.heartBeat :: tickerEgress rest
  | false :: _ => []

/-! ## Listener loop (lines 181-202) -/

/-- The listener loop over the remaining ingress items: an `Event` frame
dispatches the corresponding callback and continues; channel EOF breaks
with `Ok`; any other frame hits `unimplemented!()` (line 196), a panic.
Returns the outcome and the list of dispatched callbacks in order. -/
def listenerRun : List Frame → Outcome × List OpCodeEvent
  | [] => (.ok, [])
  | Frame.event e :: rest =>
      let r := listenerRun rest
      (r.1, e :: r.2)
  | _ :: _ => (.panicked, [])

/-- The `match join!(a, b)` shape used at lines 104-112 and 204-209,
extended with panic propagation: `join!` re-raises a panic of either
future, so the surrounding `match` is never reached in that case. -/
def joinResults : Outcome → Outcome → Outcome
  | .panicked, _ => .panicked
  | _, .panicked => .panicked
  | .ok, .ok => .ok
  | .err e, .ok => .err e
  | .ok, .err e => .err e
  | .err _, .err e => .err e

/-- `start_gateway`'s join of `(manage_gateway, listen_gateway)` results
(lines 104-112), exactly as the four match arms write it. -/
def startGatewayJoin : Except Error Unit → Except Error Unit → Except Error Unit
  | .ok _, .ok _ => .ok ()
  | .error e, .ok _ => .error e
  | .ok _, .error e => .error e
  | .error _, .error e => .error e

/-! ## Dispatcher (`listen_gateway`, lines 148-210) -/

/-- What one run of `listen_gateway` produced: its outcome, the items it
(and its ticker) enqueued on the egress channel of type
`Sender<Option<Frame>>` in order, the user callbacks dispatched in
order, and whether `notify.notify()` was executed. -/
structure DispatchResult where
  outcome : Outcome
  egress : List (Option Frame)
  callbacks : List OpCodeEvent
  notified : Bool
deriving DecidableEq

/-- `listen_gateway` over an ingress trace.  `token` is the configured
client token; `loginSendOk` records whether the egress channel still has
a live receiver when the Login frame is sent at line 179 (`false` makes
that `send` fail, which the `?` converts to `InternalChannelError`);
`ingress` is the list of frames delivered before the channel reports
EOF; `sched` is the heartbeat ticker's schedule.

The first `receiver.next()` (line 152) drives the handshake: a `Hello`
starts the ticker and proceeds; EOF returns `Ok`; any other frame
returns `ExpectationFailed("Frame::Hello(...)", observed)`.  After a
successful `Login` send the egress trace is the Login followed by the
ticker's heartbeats (the listener itself never sends on egress), and the
overall outcome is the line-204 join of ticker and listener.  The
listener executes `notify.notify()` only when its loop breaks normally
(line 200); a panic unwinds past it. -/
def listenGateway (token : String) (loginSendOk : Bool)
    (ingress : List Frame) (sched : List Bool) : DispatchResult :=
  match ingress with
  | [] => ⟨.ok, [], [], false⟩
  | Frame.hello _hb :: rest =>
      if loginSendOk then
        let l := listenerRun rest
        ⟨joinResults (tickerRun sched) l.1,
         some (Frame.login token) :: (tickerEgress sched).map some,
         l.2,
         l.1.isOk⟩
      else
        ⟨.err (.internalChannelError "SendError(..)"), [], [], false⟩
  | f :: _ => ⟨.err (.expectationFailed "Frame::Hello(...)" (frameRepr f)), [], [], false⟩

/-! ## Socket pump (`manage_gateway`, lines 115-146) -/

/-- One delivered item in the pump's `select!` race: either the next
result of `socket.next()` (`none` is stream EOF, `some (.error e)` a
transport error, both hit an `unwrap()`), or the next result of
`receiver.next()` on the egress channel (`none` is channel closed,
`some none` the `None` item, `some (some f)` a frame to send). -/
inductive PumpInput
  | incoming (m : Option (Except String WebsocketMessage))
  | outgoing (item : Option (Option Frame))

/-- Effect of one `select!` iteration of the pump. -/
inductive PumpStepResult
  | cont (toIngress : Option Frame) (toTransport : Option Frame)
  | halted (e : Error)
  | panicked
deriving DecidableEq

/-- One iteration of `manage_gateway`'s loop (lines 120-145) on the item
the `select!` produced.  `fromJson` embeds `serde_json::from_str::<Frame>`
(the `Deserialize` impl lives outside `src/`, so the pump is
parametrised by it).  A text frame that parses is pushed on ingress; a
text frame that does not parse is dropped (`_ => ()`); Close returns
`Err(SocketClose(close_data))`; any other message kind returns
`Err(ExpectationFailed("Text or Close frames only", observed))`; stream
EOF or a transport error panics (`frame.unwrap().unwrap()`).  On the
egress side, `frame.flatten().unwrap()` panics when the channel is
closed or the item is `None`, and otherwise writes the frame to the
transport. -/
def manageGatewayStep (fromJson : String → Option Frame) :
    PumpInput → PumpStepResult
  | .incoming none => .panicked
  | .incoming (some (.error _)) => .panicked
  | .incoming (some (.ok (.text s))) =>
      match fromJson s with
      | some f => .cont (some f) none
      | none => .cont none none
  | .incoming (some (.ok (.close d))) => .halted (.socketClose d)
  | .incoming (some (.ok m)) =>
      .halted (.expectationFailed "Text or Close frames only" (wsMessageRepr m))
  | .outgoing none => .panicked
  | .outgoing (some none) => .panicked
  | .outgoing (some (some f)) => .cont none (some f)

/-- What a pump run produced: `none` means the loop is still running
after consuming the given inputs (the loop has no normal exit), `some o`
that it returned or panicked with outcome `o`; plus the frames enqueued
on ingress and the frames written to the transport, in order. -/
structure PumpRun where
  result : Option Outcome
  ingress : List Frame
  written : List Frame
deriving DecidableEq

/-- `manage_gateway`'s loop folded over a list of delivered items. -/
def pumpLoop (fromJson : String → Option Frame) : List PumpInput → PumpRun
  | [] => ⟨none, [], []⟩
  | i :: rest =>
      match manageGatewayStep fromJson i with
      | .cont ti tt =>
          let r := pumpLoop fromJson rest
          ⟨r.result, ti.toList ++ r.ingress, tt.toList ++ r.written⟩
      | .halted e => ⟨some (.err e), [], []⟩
      | .panicked => ⟨some .panicked, [], []⟩

/-- `manage_gateway` from its entry: line 118 connects the websocket and
immediately `unwrap()`s the result, so a failed connection panics before
the loop ever runs; a successful connection runs the loop. -/
def manageGateway (fromJson : String → Option Frame) (connectOk : Bool)
    (inputs : List PumpInput) : PumpRun :=
  if connectOk then pumpLoop fromJson inputs else ⟨some .panicked, [], []⟩

end HivenRs

namespace HivenRs

/-! ## Helper lemmas -/

/-- Every frame the ticker enqueues is a `HeartBeat`. -/
theorem tickerEgress_mem (sched : List Bool) :
    ∀ g ∈ tickerEgress sched, g = Frame.heartBeat := by
  induction sched with
  | nil => intro g hg; cases hg
  | cons b rest ih =>
      cases b with
      | true =>
          intro g hg
          rcases List.mem_cons.mp hg with h | h
          · exact h
          · exact ih g h
      | false => intro g hg; cases hg

/-- The listener loop panics immediately on a non-`Event` frame
(`unimplemented!()` at line 196). -/
theorem listenerRun_cons_nonEvent (f : Frame) (rest : List Frame)
    (h : ∀ e, f ≠ Frame.event e) :
    listenerRun (f :: rest) = (Outcome.panicked, []) := by
  cases f with
  | event e => exact absurd rfl (h e)
  | hello hb => rfl
  | login t => rfl
  | heartBeat => rfl

/-- A prefix of `Event` frames does not change the listener's outcome. -/
theorem listenerRun_events_append (mid tail : List Frame)
    (hmid : ∀ g ∈ mid, ∃ e, g = Frame.event e) :
    (listenerRun (mid ++ tail)).1 = (listenerRun tail).1 := by
  induction mid with
  | nil => rfl
  | cons g gs ih =>
      obtain ⟨e, he⟩ := hmid g (List.mem_cons_self g gs)
      subst he
      have h2 := ih (fun x hx => hmid x (List.mem_cons_of_mem _ hx))
      simpa [listenerRun] using h2

/-- A panic of the listener propagates through the line-204 join. -/
theorem joinResults_right_panicked (x : Outcome) :
    joinResults x Outcome.panicked = Outcome.panicked := by
  cases x <;> rfl

end HivenRs

namespace HivenRs

/-! ## Claim theorems -/

/-- C1: if the first ingress frame of a session is not a `Hello`, the
dispatcher fails with `ExpectationFailed` naming `Hello` as expected
(the literal `"Frame::Hello(...)"`, lines 170-171) together with the
observed frame, its run terminates there, and it enqueues nothing on
egress — in particular no `Login` frame, so none can be written to the
transport (the pump writes only items dequeued from egress, line 142). -/
theorem c1_wrong_first_frame (token : String) (lok : Bool) (f : Frame)
    (rest : List Frame) (sched : List Bool)
    (h : ∀ hb, f ≠ Frame.hello hb) :
    (listenGateway token lok (f :: rest) sched).outcome
        = Outcome.err (Error.expectationFailed "Frame::Hello(...)" (frameRepr f))
    ∧ (listenGateway token lok (f :: rest) sched).egress = [] := by
  cases f with
  | hello hb => exact absurd rfl (h hb)
  | login t => exact ⟨rfl, rfl⟩
  | heartBeat => exact ⟨rfl, rfl⟩
  | event e => exact ⟨rfl, rfl⟩

/-- Witness for `c1_wrong_first_frame` at a concrete session whose first
frame is a `HeartBeat`. -/
theorem c1_wrong_first_frame_witness :
    (listenGateway "T" true [Frame.heartBeat] []).outcome
        = Outcome.err (Error.expectationFailed "Frame::Hello(...)"
            (frameRepr Frame.heartBeat))
    ∧ (listenGateway "T" true [Frame.heartBeat] []).egress = [] :=
  c1_wrong_first_frame "T" true Frame.heartBeat [] []
    (fun _ h => Frame.noConfusion h)

/-- C2 counterexample: a session in which `Hello` is observed but the
egress receiver is already gone at line 179 — there the `send` of the
Login fails, the `?` turns it into `InternalChannelError`, and zero
`Login` frames are enqueued, refuting the unconditional "exactly one
Login is enqueued whenever Hello is observed".  This session is
reachable: the server sends `Hello` then `Close`, so the pump forwards
`Hello` to ingress, returns `Err(SocketClose)` on the `Close` and drops
its egress receiver before the dispatcher's Login send. -/
theorem c2_counterexample :
    (listenGateway "T" false [Frame.hello 100] []).outcome
        = Outcome.err (Error.internalChannelError "SendError(..)")
    ∧ (listenGateway "T" false [Frame.hello 100] []).egress = []
    ∧ some (Frame.login "T") ∉ (listenGateway "T" false [Frame.hello 100] []).egress := by
  refine ⟨rfl, rfl, ?_⟩
  intro h
  exact List.not_mem_nil _ h

/-- C2 amended: when the first ingress frame is a `Hello` and the
line-179 Login send succeeds (the egress channel still has a live
receiver), the dispatcher's egress trace is exactly one `Login` carrying
the configured token, followed only by `HeartBeat` frames from the
ticker — so the `Login` is enqueued after `Hello` was observed and
before every `Heartbeat`.  When no `Hello` is ever observed (empty
ingress or a non-`Hello` first frame), no `Login` is enqueued; and when
the Login send fails, the dispatcher aborts with
`InternalChannelError` and no `Login` is enqueued either. -/
theorem c2_login_unique_when_egress_alive (token : String) (ingress : List Frame)
    (sched : List Bool) :
    (∀ hb rest, ingress = Frame.hello hb :: rest →
        (listenGateway token true ingress sched).egress
          = some (Frame.login token) :: (tickerEgress sched).map some
        ∧ ∀ x ∈ (tickerEgress sched).map some, x = some Frame.heartBeat)
    ∧ ((∀ hb rest, ingress ≠ Frame.hello hb :: rest) →
        ∀ t lok, some (Frame.login t) ∉ (listenGateway token lok ingress sched).egress)
    ∧ (∀ t, some (Frame.login t) ∉ (listenGateway token false ingress sched).egress) := by
  refine ⟨?_, ?_, ?_⟩
  · intro hb rest hin
    subst hin
    refine ⟨rfl, ?_⟩
    intro x hx
    obtain ⟨g, hg, hxg⟩ := List.mem_map.mp hx
    rw [← hxg, tickerEgress_mem sched g hg]
  · intro hne t lok
    cases ingress with
    | nil => simp [listenGateway]
    | cons f rest =>
        cases f with
        | hello hb => exact absurd rfl (hne hb rest)
        | login u => simp [listenGateway]
        | heartBeat => simp [listenGateway]
        | event e => simp [listenGateway]
  · intro t
    cases ingress with
    | nil => simp [listenGateway]
    | cons f rest =>
        cases f with
        | hello hb => simp [listenGateway]
        | login u => simp [listenGateway]
        | heartBeat => simp [listenGateway]
        | event e => simp [listenGateway]

/-- Witness for `c2_login_unique_when_egress_alive` at a concrete
session: `Hello` then one event, with one heartbeat tick. -/
theorem c2_login_unique_when_egress_alive_witness :
    (listenGateway "T" true
        [Frame.hello 100, Frame.event (OpCodeEvent.messageCreate "m")]
        [true]).egress
      = [some (Frame.login "T"), some Frame.heartBeat] := by
  have h := c2_login_unique_when_egress_alive "T"
      [Frame.hello 100, Frame.event (OpCodeEvent.messageCreate "m")] [true]
  have h2 := h.1 100 [Frame.event (OpCodeEvent.messageCreate "m")] rfl
  simpa using h2.1

/-- C3 counterexample: a session in which the pump does receive a Close
carrying `(4000, "bye")` — the server sent an `Event` before `Hello` and
then closed — yet `run` does not return `Err(SocketClose(...))`: the
pump returns `SocketClose`, but the dispatcher fails on the early
`Event` with `ExpectationFailed`, and the lines 104-112 join returns the
dispatcher's error, refuting the unconditional "run returns
`Err(SocketClose(c))`". -/
theorem c3_counterexample :
    (pumpLoop (fun _ => some (Frame.event (OpCodeEvent.initState "x")))
        [PumpInput.incoming (some (Except.ok (WebsocketMessage.text "e"))),
         PumpInput.incoming (some (Except.ok (WebsocketMessage.close
            (some ⟨4000, "bye"⟩))))]).result
      = some (Outcome.err (Error.socketClose (some ⟨4000, "bye"⟩)))
    ∧ (listenGateway "T" true [Frame.event (OpCodeEvent.initState "x")] []).outcome
      = Outcome.err (Error.expectationFailed "Frame::Hello(...)"
          (frameRepr (Frame.event (OpCodeEvent.initState "x"))))
    ∧ startGatewayJoin
        (Except.error (Error.socketClose (some ⟨4000, "bye"⟩)))
        (Except.error (Error.expectationFailed "Frame::Hello(...)"
          (frameRepr (Frame.event (OpCodeEvent.initState "x")))))
      ≠ Except.error (Error.socketClose (some ⟨4000, "bye"⟩)) := by
  refine ⟨rfl, rfl, ?_⟩
  intro h
  exact Error.noConfusion (Except.error.inj h)

/-- C3 amended: a websocket Close message makes the pump return
`Err(SocketClose(close_data))` with the close data (code and reason, or
`None`) surfaced verbatim (line 137), enqueueing and writing nothing
further; `run` returns exactly that error whenever the dispatcher
returned `Ok` (the usual case, since ingress EOF makes the dispatcher
return `Ok`), while if the dispatcher also failed the lines 104-112
join returns the dispatcher's error instead. -/
theorem c3_close_surfaced_verbatim (fromJson : String → Option Frame)
    (d : Option CloseFrameData) (rest : List PumpInput) (ed : Error) :
    pumpLoop fromJson
        (PumpInput.incoming (some (Except.ok (WebsocketMessage.close d))) :: rest)
      = ⟨some (Outcome.err (Error.socketClose d)), [], []⟩
    ∧ startGatewayJoin (Except.error (Error.socketClose d)) (Except.ok ())
      = Except.error (Error.socketClose d)
    ∧ startGatewayJoin (Except.error (Error.socketClose d)) (Except.error ed)
      = Except.error ed :=
  ⟨rfl, rfl, rfl⟩

/-- C4: a text frame that fails to parse as a `Frame` is silently
dropped (lines 130-136): the pump run over the remaining inputs is
unchanged — nothing is enqueued on ingress (hence no callback can be
dispatched), no error is produced, and the loop continues. -/
theorem c4_parse_failure_dropped (fromJson : String → Option Frame) (s : String)
    (rest : List PumpInput) (h : fromJson s = none) :
    pumpLoop fromJson
        (PumpInput.incoming (some (Except.ok (WebsocketMessage.text s))) :: rest)
      = pumpLoop fromJson rest := by
  have hstep : manageGatewayStep fromJson
      (PumpInput.incoming (some (Except.ok (WebsocketMessage.text s))))
        = PumpStepResult.cont none none := by
    simp [manageGatewayStep, h]
  simp [pumpLoop, hstep]

/-- Witness for `c4_parse_failure_dropped` with a parser that rejects
everything and one unparsable text frame. -/
theorem c4_parse_failure_dropped_witness :
    pumpLoop (fun _ => none)
        [PumpInput.incoming (some (Except.ok (WebsocketMessage.text "garbage")))]
      = pumpLoop (fun _ => none) [] :=
  c4_parse_failure_dropped (fun _ => none) "garbage" [] rfl

end HivenRs

namespace HivenRs

/-- C5 counterexample: in a session that completed the handshake, a
`HeartBeat` arriving on ingress makes the dispatcher panic
(`unimplemented!()` at line 196) — it does not fail with
`ExpectationFailed("event", observed)` as the claim states. -/
theorem c5_counterexample :
    (listenGateway "T" true [Frame.hello 1000, Frame.heartBeat] []).outcome
        = Outcome.panicked
    ∧ (listenGateway "T" true [Frame.hello 1000, Frame.heartBeat] []).outcome
        ≠ Outcome.err (Error.expectationFailed "event" (frameRepr Frame.heartBeat)) := by
  exact ⟨rfl, by decide⟩

/-- C5 amended: after the handshake, any ingress frame other than an
`Event` (so `Hello`, `Login` or `Heartbeat`), arriving after any prefix
of well-formed events, makes the dispatcher panic via `unimplemented!()`
rather than return an error. -/
theorem c5_nonevent_after_handshake_panics (token : String) (hb : Nat)
    (mid : List Frame) (f : Frame) (rest : List Frame) (sched : List Bool)
    (hmid : ∀ g ∈ mid, ∃ e, g = Frame.event e)
    (hf : ∀ e, f ≠ Frame.event e) :
    (listenGateway token true (Frame.hello hb :: (mid ++ f :: rest)) sched).outcome
      = Outcome.panicked := by
  have h1 := listenerRun_events_append mid (f :: rest) hmid
  have h2 := listenerRun_cons_nonEvent f rest hf
  simp [listenGateway, h1, h2, joinResults_right_panicked]

/-- Witness for `c5_nonevent_after_handshake_panics`: handshake, one
event, then a stray `HeartBeat`. -/
theorem c5_nonevent_after_handshake_panics_witness :
    (listenGateway "T" true
        [Frame.hello 50, Frame.event (OpCodeEvent.initState "x"), Frame.heartBeat]
        [true]).outcome = Outcome.panicked := by
  have h := c5_nonevent_after_handshake_panics "T" 50
      [Frame.event (OpCodeEvent.initState "x")] Frame.heartBeat [] [true]
      (by intro g hg; rw [List.mem_singleton] at hg
          exact ⟨OpCodeEvent.initState "x", hg⟩)
      (fun _ h => Frame.noConfusion h)
  simpa using h

/-- C6 counterexample: when the pump dequeues the `None` item of the
egress channel (the only candidate for a "Shutdown sentinel" in
`Sender<Option<Frame>>`), it panics — `frame.flatten().unwrap()` at
line 143 — instead of closing the transport cleanly and returning `Ok`
as the claim states. -/
theorem c6_counterexample :
    (pumpLoop (fun _ => none) [PumpInput.outgoing (some none)]).result
        = some Outcome.panicked
    ∧ (some Outcome.panicked ≠ some Outcome.ok) := by
  exact ⟨rfl, by decide⟩

/-- C6 amended: dequeueing `None` from egress panics the pump for every
parser and every list of subsequent inputs; no clean-close handling of a
shutdown item exists in the loop. -/
theorem c6_sentinel_panics_pump (fromJson : String → Option Frame)
    (rest : List PumpInput) :
    pumpLoop fromJson (PumpInput.outgoing (some none) :: rest)
      = ⟨some Outcome.panicked, [], []⟩ :=
  rfl

/-- C7 counterexample: a session whose ingress delivers `Hello` and then
EOF: the dispatcher exits with `Ok`, yet its egress trace is just the
`Login` — it never enqueues the `None` sentinel, so no `Shutdown` is
attempted on exit. -/
theorem c7_counterexample :
    (listenGateway "T" true [Frame.hello 50] []).outcome = Outcome.ok
    ∧ (listenGateway "T" true [Frame.hello 50] []).egress
        = [some (Frame.login "T")]
    ∧ none ∉ (listenGateway "T" true [Frame.hello 50] []).egress := by
  refine ⟨rfl, rfl, ?_⟩
  decide

/-- C7 amended: the dispatcher never enqueues a `None` (shutdown) item
on egress on any path; and it signals the heartbeat ticker via
`notify.notify()` (line 200) exactly when the listener loop completes
normally after a successful handshake — on pre-handshake exits nothing
is signalled or enqueued. -/
theorem c7_no_shutdown_enqueued (token : String) (lok : Bool)
    (ingress : List Frame) (sched : List Bool) :
    (∀ x ∈ (listenGateway token lok ingress sched).egress, x ≠ none)
    ∧ (∀ hb rest, ingress = Frame.hello hb :: rest → lok = true →
        (listenerRun rest).1 = Outcome.ok →
        (listenGateway token lok ingress sched).notified = true) := by
  constructor
  · intro x hx
    cases ingress with
    | nil => cases hx
    | cons f rest =>
        cases f with
        | hello hb =>
            cases lok with
            | true =>
                simp only [listenGateway] at hx
                rcases List.mem_cons.mp hx with h | h
                · subst h; simp
                · obtain ⟨g, _, hxg⟩ := List.mem_map.mp h
                  rw [← hxg]; simp
            | false => cases hx
        | login u => cases hx
        | heartBeat => cases hx
        | event e => cases hx
  · intro hb rest hin hlok hl
    subst hin
    subst hlok
    simp [listenGateway, hl, Outcome.isOk]

/-- Witness for `c7_no_shutdown_enqueued` at the session of
`c7_counterexample`. -/
theorem c7_no_shutdown_enqueued_witness :
    (∀ x ∈ (listenGateway "T" true [Frame.hello 50] []).egress, x ≠ none)
    ∧ (listenGateway "T" true [Frame.hello 50] []).notified = true := by
  have h := c7_no_shutdown_enqueued "T" true [Frame.hello 50] []
  exact ⟨h.1, h.2 50 [] rfl rfl rfl⟩

/-- C8: when a heartbeat send fails because the egress channel is
closed, the ticker panics (`sender.send(...).await.unwrap()` at
line 165) — it does not return `Ok` as the spec states; the failing
send also enqueues nothing. -/
theorem c8_ticker_panics_on_closed_egress :
    tickerRun [false] = Outcome.panicked
    ∧ tickerEgress [false] = []
    ∧ tickerRun [false] ≠ Outcome.ok := by
  exact ⟨rfl, rfl, by decide⟩

/-- C9: the session join of lines 104-112 returns `Ok` exactly when
both tasks returned `Ok`; it returns the dispatcher's error whenever
the dispatcher failed (also when the pump failed too, line 111), and
the pump's error only when the pump alone failed. -/
theorem c9_join_precedence (ep ed : Error) :
    startGatewayJoin (Except.ok ()) (Except.ok ()) = Except.ok ()
    ∧ (∀ p, startGatewayJoin p (Except.error ed) = Except.error ed)
    ∧ startGatewayJoin (Except.error ep) (Except.ok ()) = Except.error ep
    ∧ (∀ p d, startGatewayJoin p d = Except.ok () →
        p = Except.ok () ∧ d = Except.ok ()) := by
  refine ⟨rfl, ?_, rfl, ?_⟩
  · intro p; cases p <;> rfl
  · intro p d h
    cases p with
    | ok u => cases d with
      | ok v => exact ⟨rfl, rfl⟩
      | error e => exact Except.noConfusion h
    | error e => cases d with
      | ok v => exact Except.noConfusion h
      | error e2 => exact Except.noConfusion h

/-- Witness for `c9_join_precedence`: both tasks fail and the
dispatcher's error is returned. -/
theorem c9_join_precedence_witness :
    startGatewayJoin (Except.error (Error.socketClose none))
        (Except.error (Error.internalChannelError "ctx"))
      = Except.error (Error.internalChannelError "ctx") :=
  (c9_join_precedence (Error.socketClose none)
      (Error.internalChannelError "ctx")).2.1
    (Except.error (Error.socketClose none))

/-- C10: when connecting the websocket fails, `manage_gateway` panics at
the `unwrap()` on line 118 before its loop runs: the run never yields
any `Err(e)`, so `run` can only return an `Error` for conditions arising
after the transport is connected. -/
theorem c10_connect_failure_panics (fromJson : String → Option Frame)
    (inputs : List PumpInput) :
    manageGateway fromJson false inputs = ⟨some Outcome.panicked, [], []⟩
    ∧ ∀ e, (manageGateway fromJson false inputs).result ≠ some (Outcome.err e) := by
  refine ⟨rfl, ?_⟩
  intro e h
  simp [manageGateway] at h

end HivenRs
